import Mathlib

/-!
Verification of the drift-detection subsystem
(`mlops-azure/drift-detection`): the three drift monitors
(`accuracy_monitor.py`, `behavior_metrics.py`, `embedding_drift.py`),
the decision engine and orchestrator (`pipeline/drift_pipeline.py`),
and the retraining counter (`metrics/prometheus_metrics.py`).

Python floats are modelled as rationals (`ℚ`) wherever the source only
uses field arithmetic, and as reals (`ℝ`) where square roots or
logarithms appear.  Database reads, the PCA/KMeans library calls and the
action dispatchers are external collaborators: the corresponding
functions are parametrized by their results.  Python exceptions are
modelled with `Except`.
-/

namespace DriftSpec

/-- Python truthiness of an optional numeric dictionary entry:
`None` and `0.0` are falsy, every other number is truthy.
This models tests such as
`if baseline_eval['avg_accuracy'] and current_eval['avg_accuracy']:`
in `accuracy_monitor.py`. -/
def pyTruthy (o : Option ℚ) : Bool :=
  match o with
  | none => false
  | some v => v != 0

/-- Models the Python expression `float(x) if x else None` applied to an
optional numeric `x`: both `None` and an exact `0.0` become `None`. -/
def pyOptTruthy (o : Option ℚ) : Option ℚ :=
  match o with
  | none => none
  | some v => if v = 0 then none else some v

/-- Python `max` of a nonempty list, with the source's
`max(drift_components) if drift_components else 0` convention. -/
def pyMaxD0 (l : List ℚ) : ℚ :=
  match l with
  | [] => 0
  | x :: xs => xs.foldl max x

/-! ## Accuracy monitor (`monitors/accuracy_monitor.py`) -/

/-- Report produced by `AccuracyMonitor.detect_accuracy_drift`
(lines 215-283): the drift verdict, the (half-)clipped score, the three
raw drops with their flags, and the `changes` section, whose entries go
through `float(x) if x else None`. -/
structure AccuracyReport where
  drift_detected : Bool
  drift_score : ℚ
  accuracy_drop : Option ℚ
  accuracy_drift : Bool
  feedback_drop : Option ℚ
  feedback_drift : Bool
  task_success_drop : Option ℚ
  task_drift : Bool
  changes_accuracy_drop : Option ℚ
  changes_feedback_drop_pct : Option ℚ
  changes_task_success_drop : Option ℚ
deriving Repr, DecidableEq

/-- Shallow embedding of `AccuracyMonitor.detect_accuracy_drift`
(`accuracy_monitor.py` lines 197-294), parametrized by the aggregates
the three database queries return for the two windows:
`avg_accuracy` from `get_evaluation_metrics`, `avg_rating` from
`get_user_feedback_metrics` and `success_rate` from
`get_task_success_metrics` (each `none` when the period has no
qualifying records, per those functions).  Presence of each aggregate is
tested with Python truthiness (`if b and c:`), so an aggregate equal to
`0.0` is treated like a missing one.  The score is
`min(max(components), 1.0)` with `0` for an empty component list. -/
def detect_accuracy_drift (accuracy_threshold feedback_threshold : ℚ)
    (baseline_avg_accuracy current_avg_accuracy
     baseline_avg_rating current_avg_rating
     baseline_success_rate current_success_rate : Option ℚ) : AccuracyReport :=
  let accuracy_drop : Option ℚ :=
    if pyTruthy baseline_avg_accuracy && pyTruthy current_avg_accuracy then
      some (baseline_avg_accuracy.getD 0 - current_avg_accuracy.getD 0)
    else none
  let accuracy_drift : Bool :=
    match accuracy_drop with
    | some d => d > accuracy_threshold
    | none => false
  let feedback_drop : Option ℚ :=
    if pyTruthy baseline_avg_rating && pyTruthy current_avg_rating then
      some ((baseline_avg_rating.getD 0 - current_avg_rating.getD 0) /
        baseline_avg_rating.getD 0)
    else none
  let feedback_drift : Bool :=
    match feedback_drop with
    | some d => d > feedback_threshold
    | none => false
  let task_success_drop : Option ℚ :=
    if pyTruthy baseline_success_rate && pyTruthy current_success_rate then
      some (baseline_success_rate.getD 0 - current_success_rate.getD 0)
    else none
  let task_drift : Bool :=
    match task_success_drop with
    | some d => d > accuracy_threshold
    | none => false
  let drift_components : List ℚ :=
    (accuracy_drop.map (· / accuracy_threshold)).toList ++
    (feedback_drop.map (· / feedback_threshold)).toList ++
    (task_success_drop.map (· / accuracy_threshold)).toList
  { drift_detected := accuracy_drift || feedback_drift || task_drift
    drift_score := min (pyMaxD0 drift_components) 1
    accuracy_drop := accuracy_drop
    accuracy_drift := accuracy_drift
    feedback_drop := feedback_drop
    feedback_drift := feedback_drift
    task_success_drop := task_success_drop
    task_drift := task_drift
    changes_accuracy_drop := pyOptTruthy accuracy_drop
    changes_feedback_drop_pct := (pyOptTruthy feedback_drop).map (· * 100)
    changes_task_success_drop := pyOptTruthy task_success_drop }

/-! ## Behavior monitor (`monitors/behavior_metrics.py`) -/

/-- Raw per-window aggregates returned by the five database queries in
`BehaviorMetricsMonitor.get_interaction_metrics` (lines 109-154): total
row count, the three flag counts, and the average response length. -/
structure InteractionCounts where
  total : ℕ
  refusals : ℕ
  toxic : ℕ
  errors : ℕ
  avg_response_length : ℚ
deriving Repr, DecidableEq

/-- The dictionary `get_interaction_metrics` returns (lines 159-177):
all-zero rates when the window has no interactions, otherwise the
count ratios. -/
structure InteractionMetrics where
  total_interactions : ℕ
  refusal_rate : ℚ
  toxicity_rate : ℚ
  error_rate : ℚ
  avg_response_length : ℚ
deriving Repr, DecidableEq

/-- Shallow embedding of
`BehaviorMetricsMonitor.get_interaction_metrics` (lines 159-177). -/
def get_interaction_metrics (c : InteractionCounts) : InteractionMetrics :=
  if c.total = 0 then
    { total_interactions := 0, refusal_rate := 0, toxicity_rate := 0
      error_rate := 0, avg_response_length := 0 }
  else
    { total_interactions := c.total
      refusal_rate := (c.refusals : ℚ) / (c.total : ℚ)
      toxicity_rate := (c.toxic : ℚ) / (c.total : ℚ)
      error_rate := (c.errors : ℚ) / (c.total : ℚ)
      avg_response_length := c.avg_response_length }

/-- The `changes` sub-dictionary of the behavior drift report
(`behavior_metrics.py` lines 257-266). -/
structure BehaviorChanges where
  refusal_rate_change : ℚ
  refusal_drift_detected : Bool
  toxicity_rate_change : ℚ
  toxicity_drift_detected : Bool
  error_rate_change : ℚ
  error_drift_detected : Bool
  response_length_change_pct : ℚ
  length_anomaly_detected : Bool
deriving Repr, DecidableEq

/-- Dictionary view of a monitor report as the pipeline reads it with
`.get(key, default)`: every key the pipeline may look up is optional,
because the insufficient-data reports omit the verdict keys and the
full reports omit the error keys.  The `err` field models the `error`
dictionary key. -/
structure MonitorReport where
  drift_detected : Option Bool
  drift_score : Option ℚ
  changes : Option BehaviorChanges
  err : Option String
  baseline_interactions : Option ℕ
  current_interactions : Option ℕ
deriving Repr, DecidableEq

/-- Shallow embedding of
`BehaviorMetricsMonitor.detect_behavior_drift` (lines 179-283),
parametrized by the raw counts of the two windows.  If either window
has zero interactions it returns the insufficient-data report (lines
206-212), which has no verdict, score or changes keys; otherwise it
computes the four sub-signals and the score
`min(max(four ratios), 1.0)` (lines 214-272).  The interaction-count
keys exist only in the insufficient-data report. -/
def detect_behavior_drift (refusal_threshold toxicity_threshold : ℚ)
    (baseline current : InteractionCounts) : MonitorReport :=
  let bm := get_interaction_metrics baseline
  let cm := get_interaction_metrics current
  if bm.total_interactions = 0 ∨ cm.total_interactions = 0 then
    { drift_detected := none, drift_score := none, changes := none
      err := some "Insufficient data for behavior drift detection"
      baseline_interactions := some bm.total_interactions
      current_interactions := some cm.total_interactions }
  else
    let refusal_change := cm.refusal_rate - bm.refusal_rate
    let toxicity_change := cm.toxicity_rate - bm.toxicity_rate
    let error_change := cm.error_rate - bm.error_rate
    let refusal_drift : Bool := cm.refusal_rate > refusal_threshold
    let toxicity_drift : Bool := cm.toxicity_rate > toxicity_threshold
    let error_drift : Bool := cm.error_rate > 1/10
    let length_change_pct : ℚ :=
      if bm.avg_response_length > 0 then
        |cm.avg_response_length - bm.avg_response_length| / bm.avg_response_length
      else 0
    let length_anomaly : Bool := length_change_pct > 1/2
    let drift_detected := refusal_drift || toxicity_drift || error_drift || length_anomaly
    let drift_score :=
      max (max (max
        (if refusal_threshold > 0 then cm.refusal_rate / refusal_threshold else 0)
        (if toxicity_threshold > 0 then cm.toxicity_rate / toxicity_threshold else 0))
        (cm.error_rate / (1/10)))
        (length_change_pct / (1/2))
    { drift_detected := some drift_detected
      drift_score := some (min drift_score 1)
      changes := some
        { refusal_rate_change := refusal_change
          refusal_drift_detected := refusal_drift
          toxicity_rate_change := toxicity_change
          toxicity_drift_detected := toxicity_drift
          error_rate_change := error_change
          error_drift_detected := error_drift
          response_length_change_pct := length_change_pct * 100
          length_anomaly_detected := length_anomaly }
      err := none
      baseline_interactions := none
      current_interactions := none }

/-! ## Embedding monitor (`monitors/embedding_drift.py`)

Embedding vectors are lists of rationals (float data); the parts of
the computation that need square roots or logarithms are carried out
in `ℝ`. -/

/-- Python `min` over a list, `0` for an empty one (the source only
applies it to nonempty projections). -/
def pyListMin (l : List ℚ) : ℚ :=
  match l with
  | [] => 0
  | x :: xs => xs.foldl min x

/-- Python `max` over a list, `0` for an empty one. -/
def pyListMax (l : List ℚ) : ℚ :=
  match l with
  | [] => 0
  | x :: xs => xs.foldl max x

/-- Flattened entries of a window, as `np.var` sees a 2-d array. -/
def flattenW (w : List (List ℚ)) : List ℚ :=
  w.foldr (fun v acc => v ++ acc) []

/-- `np.var`: population variance of all entries (mean of squared
deviations from the mean). -/
def npVar (l : List ℚ) : ℚ :=
  let n : ℚ := l.length
  let m : ℚ := l.sum / n
  (l.map (fun x => (x - m) ^ 2)).sum / n

/-- Result dictionary of
`EmbeddingDriftDetector.compute_variance_change` (lines 134-159).  The
empty-window early return (line 145) produces a dictionary without the
`variance_change_pct` key, hence the optional fields; `detect_drift`
reads the key with `.get('variance_change_pct', 0)`. -/
structure VarianceResult where
  baseline_variance : Option ℚ
  current_variance : Option ℚ
  variance_change_pct : Option ℚ
  drift_detected : Bool
deriving Repr, DecidableEq

/-- Shallow embedding of
`EmbeddingDriftDetector.compute_variance_change` (lines 134-159):
relative change of the flattened population variance, with the
`1e-10` guard in the denominator, reported as a percentage. -/
def compute_variance_change (variance_threshold : ℚ)
    (baseline current : List (List ℚ)) : VarianceResult :=
  if baseline = [] ∨ current = [] then
    { baseline_variance := none, current_variance := none
      variance_change_pct := none, drift_detected := false }
  else
    let baseline_var := npVar (flattenW baseline)
    let current_var := npVar (flattenW current)
    let variance_change := |current_var - baseline_var| / (baseline_var + 1 / 10 ^ 10)
    { baseline_variance := some baseline_var
      current_variance := some current_var
      variance_change_pct := some (variance_change * 100)
      drift_detected := variance_change > variance_threshold }

/-- Dot product of two real vectors (`np.dot` on equal-length data). -/
noncomputable def dotL (u v : List ℝ) : ℝ :=
  (List.zipWith (fun x y => x * y) u v).sum

/-- Componentwise sum of a window of real vectors. -/
noncomputable def vsum : List (List ℝ) → List ℝ
  | [] => []
  | [v] => v
  | v :: rest => List.zipWith (fun x y => x + y) v (vsum rest)

/-- Scale a real vector by a scalar. -/
noncomputable def scaleV (c : ℝ) (v : List ℝ) : List ℝ :=
  v.map (fun x => c * x)

/-- Componentwise difference of two real vectors. -/
noncomputable def subV (u v : List ℝ) : List ℝ :=
  List.zipWith (fun x y => x - y) u v

/-- `np.mean(embeddings, axis=0)`: the centroid of a window. -/
noncomputable def centroid (w : List (List ℝ)) : List ℝ :=
  scaleV (1 / (w.length : ℝ)) (vsum w)

/-- `np.linalg.norm`: the L2 norm. -/
noncomputable def normL2 (v : List ℝ) : ℝ :=
  Real.sqrt (dotL v v)

/-- `scipy.spatial.distance.euclidean`. -/
noncomputable def euclideanDist (u v : List ℝ) : ℝ :=
  Real.sqrt (dotL (subV u v) (subV u v))

/-- `scipy.spatial.distance.cosine`:
`1 - u.v / (norm u * norm v)`. -/
noncomputable def cosineDist (u v : List ℝ) : ℝ :=
  1 - dotL u v / (normL2 u * normL2 v)

/-- Result dictionary of
`EmbeddingDriftDetector.compute_centroid_distance` (lines 98-132).
The drift flag is a proposition because it compares real numbers. -/
structure CentroidResult where
  euclidean_distance : ℝ
  cosine_distance : ℝ
  drift_detected : Prop

/-- Shallow embedding of
`EmbeddingDriftDetector.compute_centroid_distance` (lines 98-132):
Euclidean distance between the raw centroids, and cosine distance
between the centroids L2-normalized with `1e-10` added to each norm. -/
noncomputable def compute_centroid_distance (distance_threshold : ℝ)
    (baseline current : List (List ℝ)) : CentroidResult :=
  if baseline = [] ∨ current = [] then
    { euclidean_distance := 0, cosine_distance := 0, drift_detected := False }
  else
    let baseline_centroid := centroid baseline
    let current_centroid := centroid current
    let baseline_norm :=
      scaleV (1 / (normL2 baseline_centroid + 1 / 10 ^ 10)) baseline_centroid
    let current_norm :=
      scaleV (1 / (normL2 current_centroid + 1 / 10 ^ 10)) current_centroid
    let euclidean_dist := euclideanDist baseline_centroid current_centroid
    let cosine_dist := cosineDist baseline_norm current_norm
    { euclidean_distance := euclidean_dist
      cosine_distance := cosine_dist
      drift_detected :=
        euclidean_dist > distance_threshold ∨ cosine_dist > distance_threshold }

/-- Result dictionary of `EmbeddingDriftDetector.compute_cluster_drift`
(lines 161-227).  The insufficient-samples early return (lines 179-181)
produces a dictionary without the `silhouette_change` key, which
`detect_drift` reads with `.get('silhouette_change', 0)`. -/
structure ClusterResult where
  silhouette_change : Option ℝ
  drift_detected : Prop

/-- The `{'drift_detected': False, 'reason': 'insufficient_samples'}`
dictionary returned by `compute_cluster_drift` when either window has
fewer than `n_clusters` samples. -/
def insufficientCluster : ClusterResult :=
  { silhouette_change := none, drift_detected := False }

/-- `np.linspace lo hi (n+1)`: the `n + 1` equally spaced bin edges
used by `compute_population_stability_index` (line 251). -/
def linspace (lo hi : ℚ) (n : ℕ) : List ℚ :=
  (List.range (n + 1)).map (fun i => lo + (hi - lo) * i / n)

/-- Number of projected values falling into one histogram bin;
`np.histogram` uses half-open bins except for the last bin, which
includes its right edge. -/
def binCount (values : List ℚ) (lo hi : ℚ) (isLast : Bool) : ℕ :=
  (values.filter
    (fun x => lo ≤ x ∧ (if isLast then x ≤ hi else x < hi))).length

/-- `np.histogram(values, bins=edges)`: counts per bin, out-of-range
values dropped. -/
def histogramCounts (values : List ℚ) (edges : List ℚ) : List ℕ :=
  let pairs := edges.zip edges.tail
  (List.range pairs.length).map
    (fun i =>
      match pairs.get? i with
      | some (lo, hi) => binCount values lo hi (i + 1 = pairs.length)
      | none => 0)

/-- The smoothed per-bin percentages `(counts + 1) / (len + n_bins)`
of `compute_population_stability_index` (lines 257-258). -/
def smoothedPct (counts : List ℕ) (len n_bins : ℕ) : List ℚ :=
  counts.map (fun k => ((k : ℚ) + 1) / ((len : ℚ) + (n_bins : ℚ)))

/-- Shallow embedding of the binning-and-sum part of
`EmbeddingDriftDetector.compute_population_stability_index`
(lines 250-261), taking the two one-dimensional PCA projections as
input (the `PCA(n_components=1)` fit on the baseline and applied to
both windows is an external library call): bins from the baseline
projection's own min/max, counts with `+1` Laplace smoothing, then
`PSI = Σ (current_pct - baseline_pct) * ln(current_pct / baseline_pct)`. -/
noncomputable def psiFromProjections
    (baseline_1d current_1d : List ℚ) (n_bins : ℕ) : ℝ :=
  let edges := linspace (pyListMin baseline_1d) (pyListMax baseline_1d) n_bins
  let baseline_counts := histogramCounts baseline_1d edges
  let current_counts := histogramCounts current_1d edges
  let baseline_pct := smoothedPct baseline_counts baseline_1d.length n_bins
  let current_pct := smoothedPct current_counts current_1d.length n_bins
  (List.zipWith
    (fun c b => ((c - b : ℚ) : ℝ) * Real.log ((c / b : ℚ) : ℝ))
    current_pct baseline_pct).sum

/-- `np.clip(x, 0, 1)`. -/
noncomputable def clip01 (x : ℝ) : ℝ :=
  max 0 (min x 1)

/-- Cast a rational window to a real one. -/
def windowR (w : List (List ℚ)) : List (List ℝ) :=
  w.map (fun v => v.map (fun x => (x : ℝ)))

/-- Shallow embedding of the drift-score computation of
`EmbeddingDriftDetector.detect_drift` (lines 271-356), parametrized by
the external library outcomes: `cluster_core` is what
`compute_cluster_drift` returns when both windows have at least
`n_clusters` samples (its PCA/KMeans/silhouette pipeline is a library
call), and `baseline_1d`/`current_1d` are the one-dimensional PCA
projections consumed by the PSI step.  Returns `none` for the
insufficient-data report of lines 300-306 (which carries no score) and
otherwise the report's `drift_score` (lines 322-328 and 344):
`np.clip(np.mean([euclidean/distance_threshold, variance_change_pct/100,
silhouette_change/silhouette_threshold, psi/0.2]), 0, 1)`. -/
noncomputable def detect_drift_score
    (distance_threshold silhouette_threshold : ℝ) (variance_threshold : ℚ)
    (n_clusters n_bins : ℕ)
    (baseline current : List (List ℚ))
    (cluster_core : ClusterResult)
    (baseline_1d current_1d : List ℚ) : Option ℝ :=
  if baseline = [] ∨ current = [] then none
  else
    let centroid_results :=
      compute_centroid_distance distance_threshold
        (windowR baseline) (windowR current)
    let variance_results := compute_variance_change variance_threshold baseline current
    let cluster_results :=
      if baseline.length < n_clusters ∨ current.length < n_clusters then
        insufficientCluster
      else cluster_core
    let psi_value := psiFromProjections baseline_1d current_1d n_bins
    some (clip01
      ((centroid_results.euclidean_distance / distance_threshold +
        ((variance_results.variance_change_pct.getD 0 : ℚ) : ℝ) / 100 +
        (cluster_results.silhouette_change.getD 0) / silhouette_threshold +
        psi_value / (2 / 10)) / 4))

/-- Modelled from the spec (section 4.1, claim C4): the drift score as
the spec words it — "mean of four normalized sub-signals (each
sub-signal divided by its own threshold), clipped to [0,1]", the four
sub-signals being the centroid distance, the variance change, the
silhouette change and the PSI, with thresholds `distance_threshold`,
`variance_threshold`, `silhouette_threshold` and `0.2`. -/
noncomputable def spec_drift_score
    (distance_threshold variance_threshold silhouette_threshold : ℝ)
    (centroid_distance variance_change silhouette_change psi_value : ℝ) : ℝ :=
  clip01
    ((centroid_distance / distance_threshold +
      variance_change / variance_threshold +
      silhouette_change / silhouette_threshold +
      psi_value / (2 / 10)) / 4)

/-! ## Pipeline (`pipeline/drift_pipeline.py`) -/

/-- The fixed action enumeration used by
`DriftAwareRetrainingPipeline.decide_actions`. -/
inductive Action where
  | reindex_documents
  | fine_tune_model
  | update_safety_filters
deriving Repr, DecidableEq

/-- The combined drift report built by `run_drift_detection`
(`drift_pipeline.py` lines 132-147). -/
structure CombinedReport where
  embedding_drift : MonitorReport
  behavior_drift : MonitorReport
  accuracy_drift : MonitorReport
  overall_drift_detected : Bool
  overall_drift_score : ℚ
deriving Repr, DecidableEq

/-- Shallow embedding of
`DriftAwareRetrainingPipeline.run_drift_detection` (lines 95-152),
parametrized by the outcome of each monitor's detection call (`Except`
models a Python call that may raise).  The source wraps none of the
three calls in try/except, so the first raising monitor propagates its
exception out of the method; only when all three return is the
combined report built, with `report.get('drift_detected', False)` and
`report.get('drift_score', 0)` defaults for the aggregate fields.
`combine_reports` is the combined dictionary of lines 132-147. -/
def combine_reports (e b a : MonitorReport) : CombinedReport :=
  { embedding_drift := e
    behavior_drift := b
    accuracy_drift := a
    overall_drift_detected :=
      e.drift_detected.getD false || b.drift_detected.getD false ||
        a.drift_detected.getD false
    overall_drift_score :=
      max (max (e.drift_score.getD 0) (b.drift_score.getD 0))
        (a.drift_score.getD 0) }

/-- The body of `run_drift_detection`: the three detection calls in
source order, then the combined dictionary. -/
def run_drift_detection
    (embedding_result behavior_result accuracy_result :
      Except String MonitorReport) : Except String CombinedReport := do
  let e ← embedding_result
  let b ← behavior_result
  let a ← accuracy_result
  pure (combine_reports e b a)

/-- Shallow embedding of
`DriftAwareRetrainingPipeline.decide_actions` (lines 154-189): the
ordered action list, with the `fine_tune_model` append from accuracy
drift guarded by `if 'fine_tune_model' not in actions`. -/
def decide_actions (report : CombinedReport) : List Action :=
  let actions : List Action := []
  let actions :=
    if report.embedding_drift.drift_detected.getD false then
      actions ++ [Action.reindex_documents]
    else actions
  let actions :=
    if report.behavior_drift.drift_detected.getD false then
      let behavior_changes := report.behavior_drift.changes
      let actions :=
        if (behavior_changes.map (·.refusal_drift_detected)).getD false then
          actions ++ [Action.fine_tune_model]
        else actions
      if (behavior_changes.map (·.toxicity_drift_detected)).getD false then
        actions ++ [Action.update_safety_filters]
      else actions
    else actions
  if report.accuracy_drift.drift_detected.getD false then
    if Action.fine_tune_model ∈ actions then actions
    else actions ++ [Action.fine_tune_model]
  else actions

/-- Outcomes of the external action-runner calls consumed by
`execute_actions`: `reindex` stands for
`DocumentReindexer.reindex()` (payload: `documents_processed`),
`fine_tune` for `ModelFineTuner.fine_tune()` (payload: `job_id`).
An `Except.error` models the call raising. -/
structure DispatchResults where
  reindex : Except String ℕ
  fine_tune : Except String ℕ
deriving Repr

/-- Per-action entry recorded in the `results` dictionary of
`execute_actions`: the dispatcher result dictionary on success, the
literal `{'status': 'updated', ...}` dictionary for the safety-filter
branch, or `{'status': 'failed', 'error': str(e)}` when the dispatcher
raised (lines 229-231). -/
inductive ActionResult where
  | ok (payload : ℕ)
  | updated
  | failed (message : String)
deriving Repr, DecidableEq

/-- One iteration of the `execute_actions` loop body
(`drift_pipeline.py` lines 203-231): the dispatcher call is wrapped in
try/except, so a raising dispatcher is recorded as failed instead of
propagating; the safety-filter branch builds a literal dictionary and
cannot raise. -/
def execute_action (d : DispatchResults) (a : Action) : ActionResult :=
  match a with
  | Action.reindex_documents =>
    match d.reindex with
    | Except.ok n => ActionResult.ok n
    | Except.error e => ActionResult.failed e
  | Action.fine_tune_model =>
    match d.fine_tune with
    | Except.ok n => ActionResult.ok n
    | Except.error e => ActionResult.failed e
  | Action.update_safety_filters => ActionResult.updated

/-- Shallow embedding of
`DriftAwareRetrainingPipeline.execute_actions` (lines 191-233): every
requested action gets an entry, failures included. -/
def execute_actions (d : DispatchResults) (actions : List Action) :
    List (Action × ActionResult) :=
  actions.map (fun a => (a, execute_action d a))

/-- The final report `DriftAwareRetrainingPipeline.run` builds and
persists (lines 293-302), restricted to the fields the claims are
about.  `retrain_increments` counts the
`DriftMetrics.increment_retrain_events()` calls made during the run
(`prometheus_metrics.py` lines 97-99 only ever increments by one). -/
structure RunReport where
  drift_report : CombinedReport
  actions_taken : List Action
  action_results : List (Action × ActionResult)
  retrain_increments : ℕ
deriving Repr, DecidableEq

/-- Shallow embedding of `DriftAwareRetrainingPipeline.run`
(lines 253-318): detection (which may raise and then aborts the whole
run before any report exists), `decide_actions`, `execute_actions`
only when the action list is nonempty, and the retraining-counter
increment guarded solely by `if 'fine_tune_model' in actions`
(lines 286-287) inside the `if actions:` block. -/
def run (embedding_result behavior_result accuracy_result :
      Except String MonitorReport)
    (d : DispatchResults) : Except String RunReport := do
  let drift_report ← run_drift_detection
    embedding_result behavior_result accuracy_result
  let actions := decide_actions drift_report
  let action_results :=
    if actions ≠ [] then execute_actions d actions else []
  let retrain_increments : ℕ :=
    if actions ≠ [] ∧ Action.fine_tune_model ∈ actions then 1 else 0
  pure
    { drift_report := drift_report
      actions_taken := actions
      action_results := action_results
      retrain_increments := retrain_increments }

/-- The decision rules of `decide_actions` as a function of the five
booleans the method actually reads from the reports; connected to
`decide_actions` by `decide_actions_eq_core`. -/
def decide_actions_core
    (embedding_dd behavior_dd refusal toxicity accuracy_dd : Bool) :
    List Action :=
  let actions : List Action := []
  let actions :=
    if embedding_dd then actions ++ [Action.reindex_documents] else actions
  let actions :=
    if behavior_dd then
      let actions :=
        if refusal then actions ++ [Action.fine_tune_model] else actions
      if toxicity then actions ++ [Action.update_safety_filters] else actions
    else actions
  if accuracy_dd then
    if Action.fine_tune_model ∈ actions then actions
    else actions ++ [Action.fine_tune_model]
  else actions

/-- A full monitor report with no drift (used as a concrete input). -/
def noDriftReport : MonitorReport :=
  { drift_detected := some false, drift_score := some 0, changes := none
    err := none, baseline_interactions := none, current_interactions := none }

/-- A full monitor report flagging drift (used as a concrete input). -/
def driftFlaggedReport : MonitorReport :=
  { drift_detected := some true, drift_score := some 0, changes := none
    err := none, baseline_interactions := none, current_interactions := none }

/-- Dispatcher outcomes where both action runners succeed. -/
def dispatchAllOk : DispatchResults :=
  { reindex := Except.ok 120, fine_tune := Except.ok 7 }

/-- Dispatcher outcomes where the fine-tune runner raises. -/
def dispatchTunerFails : DispatchResults :=
  { reindex := Except.ok 120
    fine_tune := Except.error "fine-tune job submission failed" }

/-- Concrete combined report used as a witness input. -/
def combinedSample : CombinedReport :=
  { embedding_drift := noDriftReport
    behavior_drift := noDriftReport
    accuracy_drift := driftFlaggedReport
    overall_drift_detected := true
    overall_drift_score := max (max 0 0) 0 }

/-- Concrete zero-interaction window (current period empty). -/
def emptyWindowCounts : InteractionCounts :=
  { total := 0, refusals := 0, toxic := 0, errors := 0
    avg_response_length := 0 }

/-- Concrete baseline window with 50 interactions and one refusal. -/
def baselineWindowCounts : InteractionCounts :=
  { total := 50, refusals := 1, toxic := 0, errors := 0
    avg_response_length := 100 }

/-- Combined report whose behavior component is the insufficient-data
report for an empty current window (witness input). -/
def behaviorInsuffSample : CombinedReport :=
  { embedding_drift := noDriftReport
    behavior_drift :=
      detect_behavior_drift (1/10) (1/20) baselineWindowCounts emptyWindowCounts
    accuracy_drift := noDriftReport
    overall_drift_detected := false
    overall_drift_score := 0 }

/-- The run report produced when only accuracy drift is flagged and the
fine-tune dispatcher raises (witness input). -/
def retrainSample : RunReport :=
  { drift_report := combine_reports noDriftReport noDriftReport driftFlaggedReport
    actions_taken := [Action.fine_tune_model]
    action_results :=
      [(Action.fine_tune_model,
        ActionResult.failed "fine-tune job submission failed")]
    retrain_increments := 1 }

/-- Concrete baseline embedding window (one-dimensional vectors). -/
def ceBaseline : List (List ℚ) := [[1], [-1]]

/-- Concrete current embedding window: same centroid and identical bin
occupancy as `ceBaseline`, but smaller variance. -/
def ceCurrent : List (List ℚ) := [[9/10], [-9/10]]

/-- The one-dimensional PCA projection of `ceBaseline` (fit on the
baseline: values centered at the zero mean). -/
def ceProjB : List ℚ := [1, -1]

/-- The one-dimensional PCA projection of `ceCurrent` under the
baseline-fit map. -/
def ceProjC : List ℚ := [9/10, -9/10]

/-- The eleven bin edges `np.linspace(-1, 1, 11)` spanning
`ceProjB`'s min/max. -/
def ceEdges : List ℚ :=
  [-1, -4/5, -3/5, -2/5, -1/5, 0, 1/5, 2/5, 3/5, 4/5, 1]

/-- The `variance_change_pct` value of the concrete windows:
`100 * (19/100) / (1 + 1e-10)`. -/
def ceVarPct : ℚ := 190000000000 / 10000000001

end DriftSpec

namespace DriftSpec

lemma decide_actions_eq_core (c : CombinedReport) :
    decide_actions c =
      decide_actions_core
        (c.embedding_drift.drift_detected.getD false)
        (c.behavior_drift.drift_detected.getD false)
        ((c.behavior_drift.changes.map (·.refusal_drift_detected)).getD false)
        ((c.behavior_drift.changes.map (·.toxicity_drift_detected)).getD false)
        (c.accuracy_drift.drift_detected.getD false) := rfl

lemma decide_actions_core_count_fine_tune
    (e b r t a : Bool) :
    (decide_actions_core e b r t a).count Action.fine_tune_model ≤ 1 := by
  cases e <;> cases b <;> cases r <;> cases t <;> cases a <;> decide

lemma execute_actions_fst (d : DispatchResults) (actions : List Action) :
    (execute_actions d actions).map Prod.fst = actions := by
  induction actions with
  | nil => rfl
  | cons a t ih => simpa [execute_actions] using ih

/-- C1: the spec claims every monitor run that produces a scored report
has drift_score in [0, 1], in particular when a current-period average
exceeds its baseline; the code violates this in the accuracy monitor,
which only clips from above (`min(float(drift_score), 1.0)`,
`accuracy_monitor.py` line 256): with the default thresholds, baseline
average accuracy 1/2, current average accuracy 9/10 and no feedback or
task data, the reported drift_score is -8, outside [0, 1]. -/
theorem accuracy_drift_score_negative_on_improvement :
    (detect_accuracy_drift (1/20) (3/10) (some (1/2)) (some (9/10))
      none none none none).drift_score = -8 ∧
    (detect_accuracy_drift (1/20) (3/10) (some (1/2)) (some (9/10))
      none none none none).drift_score < 0 := by
  constructor
  · norm_num [detect_accuracy_drift, pyTruthy, pyMaxD0]
  · norm_num [detect_accuracy_drift, pyTruthy, pyMaxD0]

lemma total_interactions_eq (c : InteractionCounts) :
    (get_interaction_metrics c).total_interactions = c.total := by
  by_cases h : c.total = 0 <;> simp [get_interaction_metrics, h]

lemma decide_actions_core_no_behavior (e r t a : Bool) :
    decide_actions_core e false r t a =
      (if e then [Action.reindex_documents] else []) ++
        (if a then [Action.fine_tune_model] else []) := by
  cases e <;> cases r <;> cases t <;> cases a <;> decide

lemma run_ok_eq (e b a : MonitorReport) (d : DispatchResults) :
    run (Except.ok e) (Except.ok b) (Except.ok a) d =
      Except.ok
        { drift_report := combine_reports e b a
          actions_taken := decide_actions (combine_reports e b a)
          action_results :=
            if decide_actions (combine_reports e b a) ≠ [] then
              execute_actions d (decide_actions (combine_reports e b a))
            else []
          retrain_increments :=
            if decide_actions (combine_reports e b a) ≠ [] ∧
                Action.fine_tune_model ∈ decide_actions (combine_reports e b a)
              then 1 else 0 } := rfl

/-- C2 counterexample: the claim says a run completes and produces a
report even when one monitor's detection call raises; but the monitor
calls in `run_drift_detection` are not wrapped in try/except, so with
the embedding monitor raising (and the other two monitors returning
fine), the run propagates the exception and produces no report. -/
theorem run_aborts_when_monitor_raises :
    run (Except.error "connection refused") (Except.ok noDriftReport)
      (Except.ok noDriftReport) dispatchAllOk =
      Except.error "connection refused" := rfl

/-- C2 (amended): a failure in ANY monitor's detection call propagates
and aborts the run, producing no report (monitor calls are not
isolated); only when all three calls return does the run complete with
a report, and there a failure of one action dispatcher does not abort
the other actions: every decided action gets a recorded result, namely
its own dispatcher's isolated outcome (failures recorded as failed). -/
theorem run_monitor_failure_aborts_action_failure_does_not :
    (∀ (msg : String) (b a : Except String MonitorReport)
        (d : DispatchResults),
      run (Except.error msg) b a d = Except.error msg) ∧
    (∀ (e : MonitorReport) (msg : String) (a : Except String MonitorReport)
        (d : DispatchResults),
      run (Except.ok e) (Except.error msg) a d = Except.error msg) ∧
    (∀ (e b : MonitorReport) (msg : String) (d : DispatchResults),
      run (Except.ok e) (Except.ok b) (Except.error msg) d =
        Except.error msg) ∧
    (∀ (e b a : MonitorReport) (d : DispatchResults),
      ∃ r : RunReport,
        run (Except.ok e) (Except.ok b) (Except.ok a) d = Except.ok r ∧
        r.action_results.map Prod.fst = r.actions_taken ∧
        ∀ x ∈ r.action_results, x.2 = execute_action d x.1) := by
  refine ⟨fun _ _ _ _ => rfl, fun _ _ _ _ => rfl, fun _ _ _ _ => rfl,
    fun e b a d => ⟨_, run_ok_eq e b a d, ?_, ?_⟩⟩
  · by_cases h : decide_actions (combine_reports e b a) = [] <;>
      simp [h, execute_actions_fst]
  · intro x hx
    by_cases h : decide_actions (combine_reports e b a) = []
    · simp [h] at hx
    · simp only [h, if_pos, ne_eq, not_false_iff, if_true] at hx
      simp only [execute_actions, List.mem_map] at hx
      obtain ⟨a', _, rfl⟩ := hx
      rfl

/-- C2 witness: the amended statement at concrete inputs — a raising
behavior-style monitor aborts the run, and with all monitors returning
but the fine-tune dispatcher raising, the run completes and records
each action's own outcome. -/
theorem run_monitor_failure_aborts_action_failure_does_not_witness :
    run (Except.error "timeout") (Except.ok noDriftReport)
      (Except.ok driftFlaggedReport) dispatchAllOk =
        Except.error "timeout" ∧
    ∃ r : RunReport,
      run (Except.ok noDriftReport) (Except.ok noDriftReport)
        (Except.ok driftFlaggedReport) dispatchTunerFails = Except.ok r ∧
      r.action_results.map Prod.fst = r.actions_taken ∧
      ∀ x ∈ r.action_results, x.2 = execute_action dispatchTunerFails x.1 :=
  ⟨run_monitor_failure_aborts_action_failure_does_not.1 "timeout"
    (Except.ok noDriftReport) (Except.ok driftFlaggedReport) dispatchAllOk,
   run_monitor_failure_aborts_action_failure_does_not.2.2.2 noDriftReport
    noDriftReport driftFlaggedReport dispatchTunerFails⟩

/-- C3 counterexample: the claim says the retraining counter is
incremented only when the fine_tune_model dispatcher call succeeded;
but `run` increments it whenever `fine_tune_model` is in the action
list (lines 286-287), so with accuracy drift flagged and the fine-tune
dispatcher raising, the action is recorded as failed and the counter is
still incremented. -/
theorem retrain_incremented_when_fine_tune_dispatch_fails :
    (run (Except.ok noDriftReport) (Except.ok noDriftReport)
        (Except.ok driftFlaggedReport) dispatchTunerFails).map
      (fun r => (r.actions_taken, r.action_results, r.retrain_increments)) =
    Except.ok ([Action.fine_tune_model],
      [(Action.fine_tune_model,
        ActionResult.failed "fine-tune job submission failed")], 1) := rfl

/-- C3 (amended): for every run in which all monitors return, the
retraining counter is incremented exactly when `fine_tune_model` is in
the executed action set, regardless of whether its dispatcher call
succeeded or failed (and never when the action is not decided). -/
theorem retrain_increment_iff_fine_tune_in_actions
    (e b a : MonitorReport) (d : DispatchResults) (r : RunReport)
    (h : run (Except.ok e) (Except.ok b) (Except.ok a) d = Except.ok r) :
    r.retrain_increments =
      if Action.fine_tune_model ∈ r.actions_taken then 1 else 0 := by
  rw [run_ok_eq] at h
  obtain rfl := (Except.ok.inj h).symm
  by_cases hm : Action.fine_tune_model ∈ decide_actions (combine_reports e b a)
  · have hne : decide_actions (combine_reports e b a) ≠ [] := by
      intro h0
      rw [h0] at hm
      exact List.not_mem_nil _ hm
    simp [hm, hne]
  · simp [hm]

/-- C3 witness: the amended statement at the concrete run where only
accuracy drift is flagged and the fine-tune dispatcher raises. -/
theorem retrain_increment_iff_fine_tune_in_actions_witness :
    (run (Except.ok noDriftReport) (Except.ok noDriftReport)
        (Except.ok driftFlaggedReport) dispatchTunerFails =
      Except.ok retrainSample) ∧
    retrainSample.retrain_increments =
      if Action.fine_tune_model ∈ retrainSample.actions_taken then 1
      else 0 :=
  ⟨rfl, retrain_increment_iff_fine_tune_in_actions noDriftReport noDriftReport
    driftFlaggedReport dispatchTunerFails retrainSample rfl⟩

/-- C5: for every triple of monitor reports (combined into a report by
the pipeline), `decide_actions` lists `fine_tune_model` at most once:
the append driven by the accuracy flag is guarded by
`if 'fine_tune_model' not in actions`, so even simultaneous refusal
drift and accuracy drift yield a single occurrence. -/
theorem fine_tune_model_appears_at_most_once (c : CombinedReport) :
    (decide_actions c).count Action.fine_tune_model ≤ 1 := by
  rw [decide_actions_eq_core]
  exact decide_actions_core_count_fine_tune _ _ _ _ _

/-- C6: for every triple of monitor reports (all three detection calls
returning), the combined report's overall_drift_detected is the
logical OR of the three reports' drift_detected flags, a missing flag
(as in an insufficient-data report) counting as false, and
overall_drift_score is the maximum of the three drift_score values, a
missing score counting as 0. -/
theorem combined_report_is_or_and_max
    (e b a : MonitorReport) (c : CombinedReport)
    (h : run_drift_detection (Except.ok e) (Except.ok b) (Except.ok a) =
      Except.ok c) :
    c.overall_drift_detected =
      (e.drift_detected.getD false || b.drift_detected.getD false ||
        a.drift_detected.getD false) ∧
    c.overall_drift_score =
      max (max (e.drift_score.getD 0) (b.drift_score.getD 0))
        (a.drift_score.getD 0) := by
  obtain rfl := (Except.ok.inj h).symm
  exact ⟨rfl, rfl⟩

/-- C6 witness: the combined-report aggregation at a concrete triple
of monitor reports, the accuracy one flagging drift. -/
theorem combined_report_is_or_and_max_witness :
    (run_drift_detection (Except.ok noDriftReport) (Except.ok noDriftReport)
        (Except.ok driftFlaggedReport) = Except.ok combinedSample) ∧
    combinedSample.overall_drift_detected =
      (noDriftReport.drift_detected.getD false ||
        noDriftReport.drift_detected.getD false ||
        driftFlaggedReport.drift_detected.getD false) ∧
    combinedSample.overall_drift_score =
      max (max (noDriftReport.drift_score.getD 0)
          (noDriftReport.drift_score.getD 0))
        (driftFlaggedReport.drift_score.getD 0) :=
  ⟨rfl, combined_report_is_or_and_max noDriftReport noDriftReport
    driftFlaggedReport combinedSample rfl⟩

/-- C7: whenever either window has zero interactions, the behavior
monitor returns the explicit insufficient-data report: an error entry,
the two interaction counts, and none of the drift verdict, score or
changes entries (no further computation); and in `decide_actions` such
a behavior report contributes no action: the action list is exactly
the embedding-driven reindex plus the accuracy-driven fine-tune. -/
theorem behavior_insufficient_data_report_and_no_actions
    (rt tt : ℚ) (baseline current : InteractionCounts) (c : CombinedReport)
    (hzero : baseline.total = 0 ∨ current.total = 0)
    (hb : c.behavior_drift = detect_behavior_drift rt tt baseline current) :
    c.behavior_drift.err =
      some "Insufficient data for behavior drift detection" ∧
    c.behavior_drift.baseline_interactions = some baseline.total ∧
    c.behavior_drift.current_interactions = some current.total ∧
    c.behavior_drift.drift_detected = none ∧
    c.behavior_drift.drift_score = none ∧
    c.behavior_drift.changes = none ∧
    decide_actions c =
      (if c.embedding_drift.drift_detected.getD false then
        [Action.reindex_documents] else []) ++
      (if c.accuracy_drift.drift_detected.getD false then
        [Action.fine_tune_model] else []) := by
  have hcond : (get_interaction_metrics baseline).total_interactions = 0 ∨
      (get_interaction_metrics current).total_interactions = 0 := by
    rw [total_interactions_eq, total_interactions_eq]
    exact hzero
  have hrep : detect_behavior_drift rt tt baseline current =
      { drift_detected := none, drift_score := none, changes := none
        err := some "Insufficient data for behavior drift detection"
        baseline_interactions :=
          some (get_interaction_metrics baseline).total_interactions
        current_interactions :=
          some (get_interaction_metrics current).total_interactions } := by
    rw [detect_behavior_drift, if_pos hcond]
  rw [hb, hrep]
  refine ⟨rfl, ?_, ?_, rfl, rfl, rfl, ?_⟩
  · simp [total_interactions_eq]
  · simp [total_interactions_eq]
  · rw [decide_actions_eq_core, hb, hrep]
    exact decide_actions_core_no_behavior _ _ _ _

/-- C7 witness: the insufficient-data behavior and the action list at a
concrete pair of windows, the current one empty. -/
theorem behavior_insufficient_data_report_and_no_actions_witness :
    (emptyWindowCounts.total = 0) ∧
    (behaviorInsuffSample.behavior_drift.err =
      some "Insufficient data for behavior drift detection" ∧
    behaviorInsuffSample.behavior_drift.baseline_interactions =
      some baselineWindowCounts.total ∧
    behaviorInsuffSample.behavior_drift.current_interactions =
      some emptyWindowCounts.total ∧
    behaviorInsuffSample.behavior_drift.drift_detected = none ∧
    behaviorInsuffSample.behavior_drift.drift_score = none ∧
    behaviorInsuffSample.behavior_drift.changes = none ∧
    decide_actions behaviorInsuffSample =
      (if behaviorInsuffSample.embedding_drift.drift_detected.getD false then
        [Action.reindex_documents] else []) ++
      (if behaviorInsuffSample.accuracy_drift.drift_detected.getD false then
        [Action.fine_tune_model] else [])) :=
  ⟨rfl, behavior_insufficient_data_report_and_no_actions (1/10) (1/20)
    baselineWindowCounts emptyWindowCounts behaviorInsuffSample
    (Or.inr rfl) rfl⟩

lemma zipWith_self_sum_zero (f : ℚ → ℚ → ℝ) (hf : ∀ x, f x x = 0) :
    ∀ p : List ℚ, (List.zipWith f p p).sum = 0
  | [] => by simp
  | x :: xs => by
    rw [List.zipWith_cons_cons, List.sum_cons, hf x, zero_add]
    exact zipWith_self_sum_zero f hf xs

/-- C8: for every non-empty set of embedding vectors used identically
as both windows (hence projected by the baseline-fit principal
component map to identical one-dimensional samples) and every
n_bins ≥ 2, the Population Stability Index is exactly 0: both windows
produce identical bin counts, hence identical smoothed percentages,
and every PSI summand vanishes. -/
theorem psi_identical_windows_zero
    (emb : List (List ℚ)) (proj : List ℚ → ℚ) (n_bins : ℕ)
    (hne : emb ≠ []) (hbins : 2 ≤ n_bins) :
    psiFromProjections (emb.map proj) (emb.map proj) n_bins = 0 := by
  unfold psiFromProjections
  exact zipWith_self_sum_zero _ (fun x => by simp) _

/-- C8 witness: PSI of a one-vector window against itself with two
bins. -/
theorem psi_identical_windows_zero_witness :
    ([[(1 : ℚ)]] ≠ ([] : List (List ℚ))) ∧ 2 ≤ 2 ∧
    psiFromProjections ([[(1 : ℚ)]].map List.sum)
      ([[(1 : ℚ)]].map List.sum) 2 = 0 :=
  ⟨by simp, le_refl 2,
    psi_identical_windows_zero [[(1 : ℚ)]] List.sum 2 (by simp) (le_refl 2)⟩

/-- C10: in the accuracy monitor, each of the three sub-comparisons is
skipped (drop reported as None, no drift flagged) not only when an
aggregate is missing (zero qualifying records) but also when the
baseline or current aggregate equals exactly 0, because presence is
tested by numeric truthiness; and a computed drop of exactly 0 is
likewise reported as None in the changes section. -/
theorem accuracy_truthiness_semantics
    (athr fthr : ℚ) (be ce br cr bs cs : Option ℚ) :
    ((be = none ∨ be = some 0 ∨ ce = none ∨ ce = some 0) →
      (detect_accuracy_drift athr fthr be ce br cr bs cs).accuracy_drop =
        none ∧
      (detect_accuracy_drift athr fthr be ce br cr bs cs).accuracy_drift =
        false ∧
      (detect_accuracy_drift athr fthr be ce br cr bs
        cs).changes_accuracy_drop = none) ∧
    ((br = none ∨ br = some 0 ∨ cr = none ∨ cr = some 0) →
      (detect_accuracy_drift athr fthr be ce br cr bs cs).feedback_drop =
        none ∧
      (detect_accuracy_drift athr fthr be ce br cr bs cs).feedback_drift =
        false ∧
      (detect_accuracy_drift athr fthr be ce br cr bs
        cs).changes_feedback_drop_pct = none) ∧
    ((bs = none ∨ bs = some 0 ∨ cs = none ∨ cs = some 0) →
      (detect_accuracy_drift athr fthr be ce br cr bs
        cs).task_success_drop = none ∧
      (detect_accuracy_drift athr fthr be ce br cr bs cs).task_drift =
        false ∧
      (detect_accuracy_drift athr fthr be ce br cr bs
        cs).changes_task_success_drop = none) ∧
    ((detect_accuracy_drift athr fthr be ce br cr bs cs).accuracy_drop =
        some 0 →
      (detect_accuracy_drift athr fthr be ce br cr bs
        cs).changes_accuracy_drop = none) ∧
    ((detect_accuracy_drift athr fthr be ce br cr bs cs).feedback_drop =
        some 0 →
      (detect_accuracy_drift athr fthr be ce br cr bs
        cs).changes_feedback_drop_pct = none) ∧
    ((detect_accuracy_drift athr fthr be ce br cr bs
        cs).task_success_drop = some 0 →
      (detect_accuracy_drift athr fthr be ce br cr bs
        cs).changes_task_success_drop = none) := by
  have hfalse : ∀ (x y : Option ℚ),
      (x = none ∨ x = some 0 ∨ y = none ∨ y = some 0) →
      (pyTruthy x && pyTruthy y) = false := by
    rintro x y (rfl | rfl | rfl | rfl) <;> simp [pyTruthy]
  refine ⟨?_, ?_, ?_, ?_, ?_, ?_⟩
  · intro h
    simp [detect_accuracy_drift, hfalse be ce h, pyOptTruthy]
  · intro h
    simp [detect_accuracy_drift, hfalse br cr h, pyOptTruthy]
  · intro h
    simp [detect_accuracy_drift, hfalse bs cs h, pyOptTruthy]
  · intro h
    have hc : (detect_accuracy_drift athr fthr be ce br cr bs
        cs).changes_accuracy_drop =
        pyOptTruthy (detect_accuracy_drift athr fthr be ce br cr bs
          cs).accuracy_drop := rfl
    rw [hc, h]
    simp [pyOptTruthy]
  · intro h
    have hc : (detect_accuracy_drift athr fthr be ce br cr bs
        cs).changes_feedback_drop_pct =
        (pyOptTruthy (detect_accuracy_drift athr fthr be ce br cr bs
          cs).feedback_drop).map (· * 100) := rfl
    rw [hc, h]
    simp [pyOptTruthy]
  · intro h
    have hc : (detect_accuracy_drift athr fthr be ce br cr bs
        cs).changes_task_success_drop =
        pyOptTruthy (detect_accuracy_drift athr fthr be ce br cr bs
          cs).task_success_drop := rfl
    rw [hc, h]
    simp [pyOptTruthy]

/-- C10 witness: baseline average accuracy exactly 0 (so the accuracy
comparison is skipped by truthiness) and equal baseline/current
ratings (so the computed feedback drop of exactly 0 is reported as
None). -/
theorem accuracy_truthiness_semantics_witness :
    ((some (0 : ℚ) = none ∨ some (0 : ℚ) = some 0 ∨
        some (9/10 : ℚ) = none ∨ some (9/10 : ℚ) = some 0) ∧
      (detect_accuracy_drift (1/20) (3/10) (some 0) (some (9/10)) (some 4)
        (some 4) none none).accuracy_drop = none ∧
      (detect_accuracy_drift (1/20) (3/10) (some 0) (some (9/10)) (some 4)
        (some 4) none none).accuracy_drift = false ∧
      (detect_accuracy_drift (1/20) (3/10) (some 0) (some (9/10)) (some 4)
        (some 4) none none).changes_accuracy_drop = none) ∧
    ((detect_accuracy_drift (1/20) (3/10) (some 0) (some (9/10)) (some 4)
        (some 4) none none).feedback_drop = some 0 ∧
      (detect_accuracy_drift (1/20) (3/10) (some 0) (some (9/10)) (some 4)
        (some 4) none none).changes_feedback_drop_pct = none) := by
  have hdrop : (detect_accuracy_drift (1/20) (3/10) (some 0) (some (9/10))
      (some 4) (some 4) none none).feedback_drop = some 0 := by
    norm_num [detect_accuracy_drift, pyTruthy]
  refine ⟨⟨Or.inr (Or.inl rfl), (accuracy_truthiness_semantics (1/20) (3/10)
    (some 0) (some (9/10)) (some 4) (some 4) none none).1
      (Or.inr (Or.inl rfl))⟩, hdrop, ?_⟩
  exact (accuracy_truthiness_semantics (1/20) (3/10) (some 0) (some (9/10))
    (some 4) (some 4) none none).2.2.2.2.1 hdrop

lemma zipWith_add_scale (c : ℝ) :
    ∀ (u v : List ℝ),
      List.zipWith (fun x y => x + y) (scaleV c u) (scaleV c v) =
        scaleV c (List.zipWith (fun x y => x + y) u v)
  | [], _ => by simp [scaleV]
  | _ :: _, [] => by simp [scaleV]
  | x :: u, y :: v => by
    simp only [scaleV, List.map_cons, List.zipWith_cons_cons, mul_add]
    exact congrArg _ (zipWith_add_scale c u v)

lemma vsum_map_scale (c : ℝ) :
    ∀ l : List (List ℝ), vsum (l.map (scaleV c)) = scaleV c (vsum l)
  | [] => by simp [vsum, scaleV]
  | [v] => by simp [vsum]
  | v :: w :: rest => by
    have ih := vsum_map_scale c (w :: rest)
    show List.zipWith (fun x y => x + y) (scaleV c v)
        (vsum (List.map (scaleV c) (w :: rest))) =
      scaleV c (List.zipWith (fun x y => x + y) v (vsum (w :: rest)))
    rw [ih, zipWith_add_scale]

lemma scaleV_scaleV (a b : ℝ) (v : List ℝ) :
    scaleV a (scaleV b v) = scaleV (a * b) v := by
  simp [scaleV, List.map_map, Function.comp, mul_assoc]

lemma centroid_map_scale (c : ℝ) (l : List (List ℝ)) :
    centroid (l.map (scaleV c)) = scaleV c (centroid l) := by
  unfold centroid
  rw [vsum_map_scale, List.length_map, scaleV_scaleV, scaleV_scaleV,
    mul_comm]

lemma dotL_scale_left (a : ℝ) :
    ∀ (u v : List ℝ), dotL (scaleV a u) v = a * dotL u v
  | [], v => by simp [dotL, scaleV]
  | x :: u, [] => by simp [dotL, scaleV]
  | x :: u, y :: v => by
    have ih := dotL_scale_left a u v
    simp only [scaleV, List.map_cons, dotL, List.zipWith_cons_cons,
      List.sum_cons] at ih ⊢
    rw [ih]
    ring

lemma dotL_scale_right (a : ℝ) :
    ∀ (u v : List ℝ), dotL u (scaleV a v) = a * dotL u v
  | [], v => by simp [dotL, scaleV]
  | x :: u, [] => by simp [dotL, scaleV]
  | x :: u, y :: v => by
    have ih := dotL_scale_right a u v
    simp only [scaleV, List.map_cons, dotL, List.zipWith_cons_cons,
      List.sum_cons] at ih ⊢
    rw [ih]
    ring

lemma normL2_scale (a : ℝ) (ha : 0 ≤ a) (v : List ℝ) :
    normL2 (scaleV a v) = a * normL2 v := by
  unfold normL2
  rw [dotL_scale_left, dotL_scale_right,
    show a * (a * dotL v v) = a * a * dotL v v from by ring,
    Real.sqrt_mul (mul_self_nonneg a), Real.sqrt_mul_self ha]

lemma normL2_nonneg (v : List ℝ) : 0 ≤ normL2 v :=
  Real.sqrt_nonneg _

lemma cosineDist_scale (u v : List ℝ) (a b : ℝ) (ha : 0 < a)
    (hb : 0 < b) :
    cosineDist (scaleV a u) (scaleV b v) = cosineDist u v := by
  unfold cosineDist
  rw [dotL_scale_left, dotL_scale_right, normL2_scale a ha.le,
    normL2_scale b hb.le,
    show a * normL2 u * (b * normL2 v) =
      a * b * (normL2 u * normL2 v) from by ring,
    show a * (b * dotL u v) = a * b * dotL u v from by ring,
    mul_div_mul_left _ _ (by positivity : a * b ≠ 0)]

/-- C9: scaling every vector in both windows by the same positive
factor leaves the computed centroid cosine distance unchanged: the
centroids scale by the factor, the epsilon-padded L2 normalization
turns each centroid into a (different) positive multiple of the
unscaled centroid, and the cosine distance is invariant under positive
scaling of either argument. -/
theorem centroid_cosine_distance_scale_invariant
    (dt : ℝ) (baseline current : List (List ℝ)) (k : ℝ)
    (hk : 0 < k) (hbne : baseline ≠ []) (hcne : current ≠ []) :
    (compute_centroid_distance dt (baseline.map (scaleV k))
        (current.map (scaleV k))).cosine_distance =
      (compute_centroid_distance dt baseline current).cosine_distance := by
  have hngb : (0 : ℝ) ≤ normL2 (centroid baseline) := normL2_nonneg _
  have hngc : (0 : ℝ) ≤ normL2 (centroid current) := normL2_nonneg _
  rw [compute_centroid_distance, compute_centroid_distance,
    if_neg (by simp [hbne, hcne]), if_neg (by simp [hbne, hcne])]
  dsimp only
  rw [centroid_map_scale, centroid_map_scale, normL2_scale k hk.le,
    normL2_scale k hk.le, scaleV_scaleV, scaleV_scaleV,
    cosineDist_scale (centroid baseline) (centroid current) _ _
      (by positivity) (by positivity),
    cosineDist_scale (centroid baseline) (centroid current) _ _
      (by positivity) (by positivity)]

/-- C9 witness: scale invariance at two concrete one-vector windows and
factor 2. -/
theorem centroid_cosine_distance_scale_invariant_witness :
    (0 : ℝ) < 2 ∧ ([[(1 : ℝ), 0]] ≠ ([] : List (List ℝ))) ∧
    ([[(0 : ℝ), 1]] ≠ ([] : List (List ℝ))) ∧
    (compute_centroid_distance (3/20) ([[(1 : ℝ), 0]].map (scaleV 2))
        ([[(0 : ℝ), 1]].map (scaleV 2))).cosine_distance =
      (compute_centroid_distance (3/20) [[(1 : ℝ), 0]]
        [[(0 : ℝ), 1]]).cosine_distance :=
  ⟨by norm_num, by simp, by simp,
    centroid_cosine_distance_scale_invariant (3/20) _ _ 2 (by norm_num)
      (by simp) (by simp)⟩

lemma clip01_of_bounds (x : ℝ) (h0 : 0 ≤ x) (h1 : x ≤ 1) :
    clip01 x = x := by
  unfold clip01
  rw [min_eq_left h1, max_eq_right h0]

lemma psi_eq_zero_of_counts (b c : List ℚ) (n : ℕ) (edges : List ℚ)
    (hedges : linspace (pyListMin b) (pyListMax b) n = edges)
    (hlen : c.length = b.length)
    (hcounts : histogramCounts c edges = histogramCounts b edges) :
    psiFromProjections b c n = 0 := by
  show (List.zipWith
      (fun x y => ((x - y : ℚ) : ℝ) * Real.log ((x / y : ℚ) : ℝ))
      (smoothedPct
        (histogramCounts c (linspace (pyListMin b) (pyListMax b) n))
        c.length n)
      (smoothedPct
        (histogramCounts b (linspace (pyListMin b) (pyListMax b) n))
        b.length n)).sum = 0
  rw [hedges, hcounts, hlen]
  exact zipWith_self_sum_zero _ (fun x => by simp) _

lemma ce_min : pyListMin ceProjB = -1 := by
  show min 1 (-1 : ℚ) = -1
  norm_num [min_def]

lemma ce_maxq : pyListMax ceProjB = 1 := by
  show max 1 (-1 : ℚ) = 1
  norm_num [max_def]

lemma ce_edges_eq :
    linspace (pyListMin ceProjB) (pyListMax ceProjB) 10 = ceEdges := by
  rw [ce_min, ce_maxq]
  norm_num [linspace, List.range_succ, ceEdges]

lemma ce_counts_each :
    histogramCounts ceProjB ceEdges = [1, 0, 0, 0, 0, 0, 0, 0, 0, 1] ∧
    histogramCounts ceProjC ceEdges = [1, 0, 0, 0, 0, 0, 0, 0, 0, 1] := by
  constructor <;>
    norm_num [histogramCounts, binCount, ceEdges, ceProjB, ceProjC,
      List.range_succ, List.filter]

lemma ce_counts :
    histogramCounts ceProjC ceEdges = histogramCounts ceProjB ceEdges := by
  rw [ce_counts_each.1, ce_counts_each.2]

lemma ce_psi : psiFromProjections ceProjB ceProjC 10 = 0 :=
  psi_eq_zero_of_counts ceProjB ceProjC 10 ceEdges ce_edges_eq rfl ce_counts

lemma ce_euclid :
    (compute_centroid_distance (3/20) (windowR ceBaseline)
      (windowR ceCurrent)).euclidean_distance = 0 := by
  have h1 : windowR ceBaseline = [[(1 : ℝ)], [(-1 : ℝ)]] := by
    norm_num [windowR, ceBaseline]
  have h2 : windowR ceCurrent = [[(9/10 : ℝ)], [(-(9/10) : ℝ)]] := by
    norm_num [windowR, ceCurrent]
  rw [h1, h2]
  simp only [compute_centroid_distance]
  rw [if_neg (by simp)]
  dsimp only
  have hcb : centroid [[(1 : ℝ)], [(-1 : ℝ)]] = [0] := by
    norm_num [centroid, vsum, scaleV]
  have hcc : centroid [[(9/10 : ℝ)], [(-(9/10) : ℝ)]] = [0] := by
    norm_num [centroid, vsum, scaleV]
  rw [hcb, hcc]
  norm_num [euclideanDist, subV, dotL, Real.sqrt_zero]

lemma ce_varpct :
    (compute_variance_change (3/10) ceBaseline
      ceCurrent).variance_change_pct = some ceVarPct := by
  simp only [compute_variance_change]
  rw [if_neg (by simp [ceBaseline, ceCurrent])]
  have hb : npVar (flattenW ceBaseline) = 1 := by
    norm_num [npVar, flattenW, ceBaseline]
  have hc : npVar (flattenW ceCurrent) = 81 / 100 := by
    norm_num [npVar, flattenW, ceCurrent]
  dsimp only
  rw [hb, hc, show |(81 / 100 : ℚ) - 1| = 19 / 100 by
    rw [abs_of_nonpos (by norm_num)]; norm_num]
  norm_num [ceVarPct]

lemma detect_drift_score_eq
    (dt st : ℝ) (vt : ℚ) (k nb : ℕ)
    (baseline current : List (List ℚ)) (core : ClusterResult)
    (pb pc : List ℚ) (hbne : baseline ≠ []) (hcne : current ≠ []) :
    detect_drift_score dt st vt k nb baseline current core pb pc =
      some (clip01
        (((compute_centroid_distance dt (windowR baseline)
              (windowR current)).euclidean_distance / dt +
          ((|npVar (flattenW current) - npVar (flattenW baseline)| /
              (npVar (flattenW baseline) + 1 / 10 ^ 10) : ℚ) : ℝ) +
          ((if baseline.length < k ∨ current.length < k then
              insufficientCluster
            else core).silhouette_change.getD 0) / st +
          psiFromProjections pb pc nb / (2 / 10)) / 4)) := by
  have hv : ((compute_variance_change vt baseline
      current).variance_change_pct.getD 0 : ℚ) =
      |npVar (flattenW current) - npVar (flattenW baseline)| /
        (npVar (flattenW baseline) + 1 / 10 ^ 10) * 100 := by
    simp only [compute_variance_change]
    rw [if_neg (by simp [hbne, hcne])]
    rfl
  simp only [detect_drift_score]
  rw [if_neg (by simp [hbne, hcne])]
  rw [hv]
  congr 2
  push_cast
  ring

/-- C4 counterexample: at the concrete run with windows `[[1], [-1]]`
and `[[9/10], [-9/10]]` (default thresholds, clustering skipped for
lack of samples, PSI exactly 0, centroid distance exactly 0), the
code's drift_score differs from the claimed mean of the four
sub-signals each divided by its own threshold: the code divides the
variance sub-signal by 100 (undoing the percentage), not by
variance_threshold. -/
theorem embedding_score_not_spec_normalized_mean :
    detect_drift_score (3/20) (1/5) (3/10) 5 10 ceBaseline ceCurrent
        insufficientCluster ceProjB ceProjC ≠
      some (spec_drift_score (3/20) (3/10) (1/5)
        ((compute_centroid_distance (3/20) (windowR ceBaseline)
            (windowR ceCurrent)).euclidean_distance)
        ((((compute_variance_change (3/10) ceBaseline
            ceCurrent).variance_change_pct.getD 0 : ℚ) : ℝ) / 100)
        ((if ceBaseline.length < 5 ∨ ceCurrent.length < 5 then
            insufficientCluster
          else insufficientCluster).silhouette_change.getD 0)
        (psiFromProjections ceProjB ceProjC 10)) := by
  have hE : (compute_centroid_distance (3/20) (windowR ceBaseline)
      (windowR ceCurrent)).euclidean_distance = 0 := ce_euclid
  have hV : (compute_variance_change (3/10) ceBaseline
      ceCurrent).variance_change_pct = some ceVarPct := ce_varpct
  have hP : psiFromProjections ceProjB ceProjC 10 = 0 := ce_psi
  have hvc : (|npVar (flattenW ceCurrent) - npVar (flattenW ceBaseline)| /
      (npVar (flattenW ceBaseline) + 1 / 10 ^ 10) : ℚ) =
      ceVarPct / 100 := by
    have hb : npVar (flattenW ceBaseline) = 1 := by
      norm_num [npVar, flattenW, ceBaseline]
    have hc : npVar (flattenW ceCurrent) = 81 / 100 := by
      norm_num [npVar, flattenW, ceCurrent]
    rw [hb, hc, show |(81 / 100 : ℚ) - 1| = 19 / 100 by
      rw [abs_of_nonpos (by norm_num)]; norm_num]
    norm_num [ceVarPct]
  rw [detect_drift_score_eq (3/20) (1/5) (3/10) 5 10 ceBaseline ceCurrent
    insufficientCluster ceProjB ceProjC (by simp [ceBaseline])
    (by simp [ceCurrent])]
  simp only [spec_drift_score]
  rw [hE, hV, hP, hvc]
  simp only [if_pos (Or.inl (by norm_num [ceBaseline] : ceBaseline.length < 5)),
    insufficientCluster, Option.getD_none, Option.getD_some, Ne,
    Option.some.injEq]
  have hA0 : (0 : ℝ) ≤ (0 / (3/20) + ((ceVarPct / 100 : ℚ) : ℝ) +
      0 / (1/5) + 0 / (2/10)) / 4 := by
    push_cast [ceVarPct]
    norm_num
  have hA1 : (0 / (3/20) + ((ceVarPct / 100 : ℚ) : ℝ) + 0 / (1/5) +
      0 / (2/10)) / 4 ≤ 1 := by
    push_cast [ceVarPct]
    norm_num
  have hB0 : (0 : ℝ) ≤ (0 / (3/20) + ((ceVarPct : ℚ) : ℝ) / 100 / (3/10) +
      0 / (1/5) + 0 / (2/10)) / 4 := by
    push_cast [ceVarPct]
    norm_num
  have hB1 : (0 / (3/20) + ((ceVarPct : ℚ) : ℝ) / 100 / (3/10) +
      0 / (1/5) + 0 / (2/10)) / 4 ≤ 1 := by
    push_cast [ceVarPct]
    norm_num
  rw [clip01_of_bounds _ hA0 hA1, clip01_of_bounds _ hB0 hB1]
  push_cast [ceVarPct]
  norm_num

/-- C4 (amended): for every embedding drift run with both windows
non-empty, the report's drift_score is the clipped mean of the four
sub-signals with the variance sub-signal entering RAW (the percentage
divided back by 100), not divided by variance_threshold; the other
three sub-signals are divided by distance_threshold,
silhouette_threshold and 0.2 as the spec says. -/
theorem embedding_drift_score_formula
    (dt st : ℝ) (vt : ℚ) (k nb : ℕ)
    (baseline current : List (List ℚ)) (core : ClusterResult)
    (pb pc : List ℚ) (hbne : baseline ≠ []) (hcne : current ≠ []) :
    detect_drift_score dt st vt k nb baseline current core pb pc =
      some (clip01
        (((compute_centroid_distance dt (windowR baseline)
              (windowR current)).euclidean_distance / dt +
          ((|npVar (flattenW current) - npVar (flattenW baseline)| /
              (npVar (flattenW baseline) + 1 / 10 ^ 10) : ℚ) : ℝ) +
          ((if baseline.length < k ∨ current.length < k then
              insufficientCluster
            else core).silhouette_change.getD 0) / st +
          psiFromProjections pb pc nb / (2 / 10)) / 4)) :=
  detect_drift_score_eq dt st vt k nb baseline current core pb pc hbne hcne

/-- C4 witness: the amended score formula at the concrete
counterexample windows. -/
theorem embedding_drift_score_formula_witness :
    (ceBaseline ≠ []) ∧ (ceCurrent ≠ []) ∧
    detect_drift_score (3/20) (1/5) (3/10) 5 10 ceBaseline ceCurrent
        insufficientCluster ceProjB ceProjC =
      some (clip01
        (((compute_centroid_distance (3/20) (windowR ceBaseline)
              (windowR ceCurrent)).euclidean_distance / (3/20) +
          ((|npVar (flattenW ceCurrent) - npVar (flattenW ceBaseline)| /
              (npVar (flattenW ceBaseline) + 1 / 10 ^ 10) : ℚ) : ℝ) +
          ((if ceBaseline.length < 5 ∨ ceCurrent.length < 5 then
              insufficientCluster
            else insufficientCluster).silhouette_change.getD 0) / (1/5) +
          psiFromProjections ceProjB ceProjC 10 / (2 / 10)) / 4)) :=
  ⟨by simp [ceBaseline], by simp [ceCurrent],
    embedding_drift_score_formula (3/20) (1/5) (3/10) 5 10 ceBaseline
      ceCurrent insufficientCluster ceProjB ceProjC (by simp [ceBaseline])
      (by simp [ceCurrent])⟩

end DriftSpec
